import Mathlib

/-!
Shallow embedding of `src/bot.py` (Telegram cloud-storage bot).

The embedding covers the pure logic of the bot: file classification
(`classify_file`), size formatting (`format_size`), the inbound-file record
builder (`handle_file`), the listing endpoint (`handle_api_files`), the
download endpoint (`handle_api_download`) and the relay endpoint
(`handle_api_send`).  External collaborators (Telegram client, Firestore,
aiohttp transport) are modelled as explicit inputs: the outcome of the
upstream fetch is a value of `Upstream`, the per-method Telegram dispatch
outcome is a function `SendMethod → Bool`, and the Firestore collection is a
list of stored documents.
-/

namespace CloudBot

/-- Python truthiness of an optional string (`if x:` is false for `None`
and for the empty string). -/
def strTruthy (o : Option String) : Bool :=
  o.getD "" ≠ ""

/-- Python `x or d` for an optional string `x`: the default is taken when
`x` is `None` or empty. -/
def orFalsy (o : Option String) (d : String) : String :=
  if strTruthy o then o.getD "" else d

/-- Python `str.startswith(pre)`, via the underlying character lists. -/
def pyStartsWith (pre s : String) : Bool :=
  pre.data.isPrefixOf s.data

/-- Python `str.lower()` (ASCII case folding, which covers the error texts
involved), via the character list. -/
def pyLower (s : String) : String :=
  ⟨s.data.map Char.toLower⟩

/-- Substring occurrence on character lists (Python `needle in hay`). -/
def listContainsSub (needle : List Char) : List Char → Bool
  | [] => needle.isEmpty
  | c :: cs => needle.isPrefixOf (c :: cs) || listContainsSub needle cs

/-- Python `needle in hay` for strings. -/
def pyIn (needle hay : String) : Bool :=
  listContainsSub needle.data hay.data

/-! ## classify_file (src/bot.py lines 65-77) -/

/-- The image extension set of `classify_file`. -/
def imageExts : List String :=
  ["jpg", "jpeg", "png", "gif", "bmp", "webp", "svg", "tiff"]

/-- The media extension set of `classify_file`. -/
def mediaExts : List String :=
  ["mp4", "mov", "avi", "mkv", "mp3", "ogg", "wav", "flac", "aac"]

/-- `file_name.rsplit(".", 1)[-1].lower() if "." in file_name else ""`:
the lowercased text after the last dot, empty when there is no dot.
Implemented on the character list: the last dot's suffix is the reversal
of the longest dot-free suffix of the reversed list. -/
def extOf (file_name : String) : String :=
  if file_name.data.contains '.' then
    ⟨((file_name.data.reverse.takeWhile (fun c => c != '.')).reverse).map
      Char.toLower⟩
  else ""

/-- The `if file_name:` block of `classify_file` followed by the final
`return "document"`. -/
def classify_by_extension (file_name : Option String) : String :=
  if strTruthy file_name then
    if imageExts.contains (extOf (file_name.getD "")) then "image"
    else if mediaExts.contains (extOf (file_name.getD "")) then "media"
    else "document"
  else "document"

/-- `classify_file(mime_type, file_name)` from src/bot.py lines 65-77. -/
def classify_file (mime_type file_name : Option String) : String :=
  if strTruthy mime_type && pyStartsWith "image" (mime_type.getD "") then "image"
  else if strTruthy mime_type &&
      (pyStartsWith "video" (mime_type.getD "") ||
       pyStartsWith "audio" (mime_type.getD "")) then "media"
  else classify_by_extension file_name

/-! ## format_size (src/bot.py lines 80-88)

The Python loop keeps `s = float(size_bytes)` and divides by 1024 at each
step.  Division of an IEEE double by 1024 only decrements the exponent, so
for the representable integer inputs the value of `s` after `k` divisions
is exactly `n / 1024^k`; the embedding tracks that rational exactly as the
pair `(n, d)` with `d = 1024^k`.  `f"{s:.1f}"` rounds the value to one
decimal digit with round-half-to-even, which is encoded explicitly. -/

/-- `f"{s:.1f}"` for the exact nonnegative value `n / d`: round
`10 * n / d` to the nearest integer (ties to even) and print it with one
digit after the decimal point. -/
def fmtOneDecimal (n d : ℕ) : String :=
  let q := (10 * n) / d
  let r := (10 * n) % d
  let t := if 2 * r < d then q else if d < 2 * r then q + 1
    else if q % 2 = 0 then q else q + 1
  toString (t / 10) ++ "." ++ toString (t % 10)

/-- The unit loop of `format_size`: the current value is `n / d`, and `d`
is multiplied by 1024 instead of dividing the float. -/
def formatLoop (n : ℕ) : ℕ → List String → String
  | d, [] => fmtOneDecimal n d ++ " TB"
  | d, u :: us =>
    if n < 1024 * d then fmtOneDecimal n d ++ " " ++ u
    else formatLoop n (1024 * d) us

/-- `format_size(size_bytes)` from src/bot.py lines 80-88.  `if not
size_bytes:` is true for `None` and for `0`. -/
def format_size : Option ℕ → String
  | none => "unknown"
  | some n => if n = 0 then "unknown" else formatLoop n 1 ["B", "KB", "MB", "GB"]

/-! ## handle_file (src/bot.py lines 112-169): the record builder -/

/-- One element of Telegram's `message.photo` size list. -/
structure PhotoSize where
  file_id : String
  file_unique_id : String
  file_size : Option ℕ
deriving DecidableEq

/-- The content payload of an inbound message.  One constructor per
recognized shape, plus `other` for a payload matching none of them
(then every `message.<kind>` probe of the source is `None`). -/
inductive TgPayload where
  | document (file_id : String) (file_name : Option String)
      (file_size : Option ℕ) (mime_type : Option String)
  | photo (sizes : List PhotoSize)
  | video (file_id : String) (file_name : Option String)
      (file_size : Option ℕ) (mime_type : Option String)
  | audio (file_id : String) (file_name : Option String)
      (file_size : Option ℕ) (mime_type : Option String)
  | voice (file_id : String) (file_size : Option ℕ)
  | videoNote (file_id : String) (file_size : Option ℕ)
  | animation (file_id : String) (file_name : Option String)
      (file_size : Option ℕ) (mime_type : Option String)
  | other
deriving DecidableEq

/-- The `if/elif` chain of `handle_file` (lines 123-144): resolve
`(file_id, file_name, file_size, mime_type)` from the payload shape, or
`none` when no branch assigns a `file_id`.  `message.photo[-1]` is the
last element of the size list; an empty list is falsy in Python so the
`photo` branch is skipped for it. -/
def resolveFileMeta (message_id : ℕ) : TgPayload →
    Option (String × String × Option ℕ × Option String)
  | .document fid nm sz mm => some (fid, orFalsy nm "document", sz, mm)
  | .photo sizes =>
    match sizes.getLast? with
    | some ph => some (ph.file_id, "photo_" ++ ph.file_unique_id ++ ".jpg",
        ph.file_size, some "image/jpeg")
    | none => none
  | .video fid nm sz mm =>
      some (fid, orFalsy nm "video.mp4", sz, some (orFalsy mm "video/mp4"))
  | .audio fid nm sz mm =>
      some (fid, orFalsy nm "audio.mp3", sz, some (orFalsy mm "audio/mpeg"))
  | .voice fid sz =>
      some (fid, "voice_" ++ toString message_id ++ ".ogg", sz, some "audio/ogg")
  | .videoNote fid sz =>
      some (fid, "videonote_" ++ toString message_id ++ ".mp4", sz,
        some "video/mp4")
  | .animation fid nm sz mm =>
      some (fid, orFalsy nm "animation.gif", sz, some (orFalsy mm "image/gif"))
  | .other => none

/-- The `doc_data` dictionary written to the `files` collection (lines
151-155); `timestamp` is assigned by the store, not by this builder. -/
structure DocData where
  file_id : String
  file_name : String
  file_size : Option ℕ
  mime_type : Option String
  category : String
  chat_id : String
deriving DecidableEq

/-- Outcome of `handle_file`: either a record handed to
`db.collection("files").add` or the user-visible failure notice of the
`if not file_id:` branch.  The confirmation text of the success path is
display-only and elided. -/
inductive IngestResult where
  | saved (record : DocData)
  | failed (notice : String)
deriving DecidableEq

/-- `handle_file` (lines 112-169) up to the store write.  `if not
file_id:` is true for `None` and for the empty string. -/
def handle_file (message_id : ℕ) (chat_id : String) (p : TgPayload) :
    IngestResult :=
  match resolveFileMeta message_id p with
  | none => .failed "❌ Could not process this file."
  | some (fid, nm, sz, mm) =>
    if fid = "" then .failed "❌ Could not process this file."
    else .saved
      { file_id := fid, file_name := nm, file_size := sz, mime_type := mm,
        category := classify_file mm (some nm), chat_id := chat_id }

/-! ## handle_api_download (src/bot.py lines 242-280)

The interaction with Telegram and with the aiohttp session is modelled by
an `Upstream` value: either `bot.get_file` raised, or `session.get` (or the
body read) raised, or a response with status, content type and bytes came
back.  Both raises land in the single `except Exception` handler of the
source. -/

/-- Outcome of the upstream interaction of the download handler. -/
inductive Upstream where
  | getFileErr (msg : String)
  | fetchErr (msg : String)
  | response (status : ℕ) (content_type : Option String) (body : List ℕ)
deriving DecidableEq

/-- Body of an API response: a JSON error object, a JSON success object, or
raw bytes together with the `Content-Disposition` and `Content-Type`
header values. -/
inductive RespBody where
  | jsonErr (error : String)
  | jsonOk
  | bytes (content : List ℕ) (content_disposition : String)
      (content_type : String)
deriving DecidableEq

/-- An HTTP response of the web API: status code and body. -/
structure HttpResp where
  status : ℕ
  body : RespBody
deriving DecidableEq

/-- The message of the 413 branch of the download handler. -/
def tooLargeText : String :=
  "File is larger than 20MB. Use the Telegram bot to download it (Get button in Mini App)."

/-- `handle_api_download` (lines 242-280).  `request.query.get("file_id")`
is `none` when absent; `request.query.get("name", "file")` defaults only
when absent; `if not file_id:` is true for `None` and the empty string.
The `except Exception` handler returns 413 when the lowered message
contains `"file is too big"`, else 500. -/
def handle_api_download (file_id : Option String) (name : Option String)
    (up : Upstream) : HttpResp :=
  let file_name := name.getD "file"
  if ¬ strTruthy file_id then ⟨400, .jsonErr "file_id required"⟩
  else
    match up with
    | .getFileErr msg =>
      if pyIn "file is too big" (pyLower msg) then ⟨413, .jsonErr tooLargeText⟩
      else ⟨500, .jsonErr msg⟩
    | .fetchErr msg =>
      if pyIn "file is too big" (pyLower msg) then ⟨413, .jsonErr tooLargeText⟩
      else ⟨500, .jsonErr msg⟩
    | .response st ct content =>
      if st ≠ 200 then ⟨502, .jsonErr "Telegram download failed"⟩
      else ⟨200, .bytes content
        ("attachment; filename=\"" ++ file_name ++ "\"")
        (orFalsy ct "application/octet-stream")⟩

/-! ## handle_api_send (src/bot.py lines 283-309) -/

/-- The four dispatch methods tried by the relay loop, in source order:
`bot.send_document`, `bot.send_photo`, `bot.send_video`, `bot.send_audio`. -/
inductive SendMethod where
  | document
  | photo
  | video
  | audio
deriving DecidableEq

/-- The fixed method order of the relay loop. -/
def sendOrder : List SendMethod :=
  [.document, .photo, .video, .audio]

/-- The `for method in [...]` loop of `handle_api_send`: `dispatch m` tells
whether method `m` succeeds for this `(file_id, chat_id)` pair (each method
is called at most once, so a function is a faithful model).  Returns the
list of methods attempted, in order, and the final `sent` flag. -/
def relayLoop (dispatch : SendMethod → Bool) : List SendMethod →
    List SendMethod × Bool
  | [] => ([], false)
  | m :: ms =>
    if dispatch m then ([m], true)
    else ((relayLoop dispatch ms).1.cons m, (relayLoop dispatch ms).2)

/-- The relay loop run on the fixed method order. -/
def relayAttempt (dispatch : SendMethod → Bool) : List SendMethod × Bool :=
  relayLoop dispatch sendOrder

/-- `handle_api_send` (lines 283-309).  `chat_id` arrives as a JSON value
convertible to an integer; `if not file_id or not chat_id:` is true when
either is absent, when `file_id` is empty, and when `chat_id` is `0`. -/
def handle_api_send (dispatch : SendMethod → Bool) (file_id : Option String)
    (chat_id : Option ℤ) : HttpResp :=
  if ¬ strTruthy file_id ∨ chat_id.getD 0 = 0 then
    ⟨400, .jsonErr "file_id and chat_id required"⟩
  else if (relayAttempt dispatch).2 then ⟨200, .jsonOk⟩
  else ⟨500, .jsonErr "Could not send file"⟩

/-! ## handle_api_files (src/bot.py lines 223-239)

The Firestore collection is a list of stored documents.  A stored
`timestamp` is a Firestore timestamp (always truthy when present),
normalized to its integer epoch seconds; the model carries those seconds
directly.  `files.sort(key=..., reverse=True)` is a stable sort by the
descending key; every stable sort agrees on a total preorder, so
`List.insertionSort` with the same key order is an exact model of it. -/

/-- A document of the `files` collection as returned by `doc.to_dict()`,
plus its document id.  Fields mirror `doc_data`; `timestamp` holds the
epoch seconds of the stored server timestamp when one is present. -/
structure StoredDoc where
  doc_id : String
  file_id : Option String
  file_name : Option String
  file_size : Option ℕ
  mime_type : Option String
  category : Option String
  chat_id : Option String
  timestamp : Option ℤ
deriving DecidableEq

/-- One entry of the `/api/files` JSON array: the document fields, the
added `id`, and `timestamp` replaced by `{seconds: ...}` when present
(`ts_seconds = none` means the entry carries no timestamp object). -/
structure ApiFileEntry where
  id : String
  file_id : Option String
  file_name : Option String
  file_size : Option ℕ
  mime_type : Option String
  category : Option String
  chat_id : Option String
  ts_seconds : Option ℤ
deriving DecidableEq

/-- The per-document normalization of the listing loop (lines 229-234). -/
def normalizeDoc (d : StoredDoc) : ApiFileEntry :=
  { id := d.doc_id, file_id := d.file_id, file_name := d.file_name,
    file_size := d.file_size, mime_type := d.mime_type,
    category := d.category, chat_id := d.chat_id, ts_seconds := d.timestamp }

/-- The sort key `x.get("timestamp", {}).get("seconds", 0)` (line 235). -/
def sortKey (e : ApiFileEntry) : ℤ :=
  e.ts_seconds.getD 0

/-- `a` may precede `b` in the descending-key order of line 235. -/
def fileOrder (a b : ApiFileEntry) : Prop :=
  sortKey b ≤ sortKey a

instance : DecidableRel fileOrder :=
  fun a b => inferInstanceAs (Decidable (sortKey b ≤ sortKey a))

instance : IsTotal ApiFileEntry fileOrder :=
  ⟨fun a b => le_total (sortKey b) (sortKey a)⟩

instance : IsTrans ApiFileEntry fileOrder :=
  ⟨fun _ _ _ hab hbc => le_trans hbc hab⟩

/-- `handle_api_files` (lines 223-239) on a successful stream: normalize
every document, then sort by descending timestamp seconds (stable). -/
def handle_api_files (docs : List StoredDoc) : List ApiFileEntry :=
  List.insertionSort fileOrder (docs.map normalizeDoc)

/-! ## Helper lemmas -/

/-- The attempted-method list of the relay loop is an initial segment of
the method list it iterates. -/
lemma relayLoop_fst_take (d : SendMethod → Bool) (ms : List SendMethod) :
    ∃ k, k ≤ ms.length ∧ (relayLoop d ms).1 = ms.take k := by
  induction ms with
  | nil => exact ⟨0, by simp [relayLoop]⟩
  | cons m ms ih =>
    by_cases h : d m = true
    · exact ⟨1, by simp [relayLoop, h]⟩
    · obtain ⟨k, hk, he⟩ := ih
      refine ⟨k + 1, by simpa using hk, ?_⟩
      simp [relayLoop, h, he]

/-- Every attempted method except possibly the last one failed: the loop
stops at the first success. -/
lemma relayLoop_dropLast_false (d : SendMethod → Bool) :
    ∀ ms : List SendMethod, ∀ m ∈ (relayLoop d ms).1.dropLast, d m = false := by
  intro ms
  induction ms with
  | nil => simp [relayLoop]
  | cons a ms ih =>
    by_cases h : d a = true
    · simp [relayLoop, h]
    · intro m hm
      rcases e : (relayLoop d ms).1 with _ | ⟨b, bs⟩
      · simp [relayLoop, h, e] at hm
      · simp only [relayLoop, if_neg h, e, List.cons_append, List.dropLast_cons₂,
          List.mem_cons] at hm
        rcases hm with rfl | hm
        · simpa using h
        · exact ih m (by rw [e]; exact hm)

/-- The loop's `sent` flag is true exactly when some iterated method
succeeds. -/
lemma relayLoop_snd_iff (d : SendMethod → Bool) :
    ∀ ms : List SendMethod, (relayLoop d ms).2 = true ↔ ∃ m ∈ ms, d m = true := by
  intro ms
  induction ms with
  | nil => simp [relayLoop]
  | cons a ms ih =>
    by_cases h : d a = true
    · simp [relayLoop, h]
    · simp only [relayLoop, if_neg h]
      simp [ih, h]

/-- Two patterns beginning with distinct characters cannot both be string
prefixes of the same string. -/
lemma pyStartsWith_disjoint (a b : String) (c1 c2 : Char) (l1 l2 : List Char)
    (ha : a.data = c1 :: l1) (hb : b.data = c2 :: l2) (hne : c1 ≠ c2)
    (s : String) (h : pyStartsWith a s = true) : pyStartsWith b s = false := by
  unfold pyStartsWith at h ⊢
  rw [ha] at h
  rw [hb]
  cases e : s.data with
  | nil => rw [e] at h; simp [List.isPrefixOf] at h
  | cons c cs =>
    rw [e] at h
    simp only [List.isPrefixOf, Bool.and_eq_true, beq_iff_eq] at h
    obtain ⟨h1, -⟩ := h
    subst h1
    simp only [List.isPrefixOf, Bool.and_eq_false_iff]
    left
    simp only [beq_eq_false_iff_ne, ne_eq]
    exact fun hx => hne hx.symm

/-! ## Claim theorems -/

/-- C1: the relay (send) path, for every `(originId, destinationChatId)`
pair, attempts the dispatch methods in the fixed order document, photo,
video, audio (the attempted list is an initial segment of that order and
every attempted method but the last failed, so the loop stops at the first
success; in particular when the first method fails and the second succeeds
exactly the first two are attempted), no method is attempted twice, and
the handler reports HTTP 500 if and only if all four methods fail. -/
theorem relay_fixed_order_first_success (dispatch : SendMethod → Bool)
    (fid : String) (cid : ℤ) (hf : fid ≠ "") (hc : cid ≠ 0) :
    (∃ k, k ≤ 4 ∧ (relayAttempt dispatch).1 = sendOrder.take k)
    ∧ (∀ m ∈ (relayAttempt dispatch).1.dropLast, dispatch m = false)
    ∧ (dispatch .document = false → dispatch .photo = true →
        (relayAttempt dispatch).1 = [SendMethod.document, SendMethod.photo])
    ∧ (relayAttempt dispatch).1.Nodup
    ∧ ((handle_api_send dispatch (some fid) (some cid)).status = 500 ↔
        ∀ m, dispatch m = false)
    ∧ ((handle_api_send dispatch (some fid) (some cid)).status = 200 ↔
        ∃ m, dispatch m = true) := by
  have hvalid : ¬ (¬ strTruthy (some fid) ∨ (some cid : Option ℤ).getD 0 = 0) := by
    simp [strTruthy, hf, hc]
  have hall : (∀ m ∈ sendOrder, dispatch m = false) ↔ ∀ m, dispatch m = false := by
    constructor
    · intro h m; cases m <;> exact h _ (by simp [sendOrder])
    · intro h m _; exact h m
  refine ⟨?_, relayLoop_dropLast_false dispatch sendOrder, ?_, ?_, ?_, ?_⟩
  · obtain ⟨k, hk, he⟩ := relayLoop_fst_take dispatch sendOrder
    exact ⟨k, by simpa [sendOrder] using hk, he⟩
  · intro hd hp
    simp [relayAttempt, relayLoop, sendOrder, hd, hp]
  · obtain ⟨k, _, he⟩ := relayLoop_fst_take dispatch sendOrder
    simp only [relayAttempt]
    rw [he]
    exact (List.take_sublist k sendOrder).nodup (by decide)
  · have hstat : (handle_api_send dispatch (some fid) (some cid)).status
        = if (relayAttempt dispatch).2 then 200 else 500 := by
      rw [handle_api_send, if_neg hvalid]
      cases hb : (relayAttempt dispatch).2 <;> simp [hb]
    rw [hstat]
    cases hb : (relayAttempt dispatch).2 with
    | true =>
      have hb' : (relayLoop dispatch sendOrder).2 = true := hb
      simp only [if_true]
      constructor
      · intro habs; exact absurd habs (by decide)
      · intro hnone
        obtain ⟨m, -, hm⟩ := (relayLoop_snd_iff dispatch sendOrder).mp hb'
        rw [hnone m] at hm; exact absurd hm (by decide)
    | false =>
      have hb' : (relayLoop dispatch sendOrder).2 = false := hb
      simp only [Bool.false_eq_true, if_false]
      constructor
      · intro _
        rw [← hall]
        intro m hm
        by_contra hmt
        simp only [Bool.not_eq_false] at hmt
        have h2 : (relayLoop dispatch sendOrder).2 = true :=
          (relayLoop_snd_iff dispatch sendOrder).mpr ⟨m, hm, hmt⟩
        rw [hb'] at h2; exact absurd h2 (by decide)
      · intro _; trivial
  · have hstat : (handle_api_send dispatch (some fid) (some cid)).status
        = if (relayAttempt dispatch).2 then 200 else 500 := by
      rw [handle_api_send, if_neg hvalid]
      cases hb : (relayAttempt dispatch).2 <;> simp [hb]
    rw [hstat]
    cases hb : (relayAttempt dispatch).2 with
    | true =>
      have hb' : (relayLoop dispatch sendOrder).2 = true := hb
      simp only [if_true]
      obtain ⟨m, -, hm⟩ := (relayLoop_snd_iff dispatch sendOrder).mp hb'
      exact ⟨fun _ => ⟨m, hm⟩, fun _ => by trivial⟩
    | false =>
      have hb' : (relayLoop dispatch sendOrder).2 = false := hb
      simp only [Bool.false_eq_true, if_false]
      constructor
      · intro habs; exact absurd habs (by decide)
      · intro hex
        obtain ⟨m, hm⟩ := hex
        have h2 : (relayLoop dispatch sendOrder).2 = true :=
          (relayLoop_snd_iff dispatch sendOrder).mpr
            ⟨m, by cases m <;> simp [sendOrder], hm⟩
        rw [hb'] at h2; exact absurd h2 (by decide)

/-- C1 witness: with a dispatch oracle where only the photo method
succeeds, the relay loop attempts exactly document then photo. -/
theorem relay_fixed_order_first_success_witness :
    (relayAttempt (fun m => m == SendMethod.photo)).1
      = [SendMethod.document, SendMethod.photo] := by
  have h := relay_fixed_order_first_success (fun m => m == SendMethod.photo)
    "abc" 1 (by decide) (by decide)
  exact h.2.2.1 (by decide) (by decide)

/-- C2 counterexample: a transport error (an exception raised by the
upstream fetch, here a connection reset) is answered with status 500 by
the generic exception branch, not with the gateway status 502 that the
claim asserts for every upstream fetch failure. -/
theorem download_transport_error_not_gateway :
    (handle_api_download (some "f1") none
      (.fetchErr "connection reset by peer")).status = 500
    ∧ (handle_api_download (some "f1") none
      (.fetchErr "connection reset by peer")).status ≠ 502 := by decide

/-- C2 (amended): a non-success HTTP status from the origin is mapped to
the gateway status 502; a transport error instead falls into the generic
exception handler, which answers 500 whenever the error text does not
mention the size ceiling. -/
theorem download_error_status_mapping (fid : String) (hf : fid ≠ "")
    (nm : Option String) :
    (∀ st ct body, st ≠ 200 →
      (handle_api_download (some fid) nm (.response st ct body)).status = 502)
    ∧ (∀ msg, pyIn "file is too big" (pyLower msg) = false →
      (handle_api_download (some fid) nm (.fetchErr msg)).status = 500) := by
  constructor
  · intro st ct body hst
    simp [handle_api_download, strTruthy, hf, hst]
  · intro msg hm
    simp [handle_api_download, strTruthy, hf, hm]

/-- C2 witness: a 404 from the origin yields 502, and a transport error
with an unrelated message yields 500. -/
theorem download_error_status_mapping_witness :
    (handle_api_download (some "f2") none (.response 404 none [])).status = 502
    ∧ (handle_api_download (some "f2") none (.fetchErr "boom")).status = 500 := by
  have h := download_error_status_mapping "f2" (by decide) none
  exact ⟨h.1 404 none [] (by decide), h.2 "boom" (by decide)⟩

/-- C3: an inbound file event matching none of the seven recognized
payload shapes resolves no `originId`, so the ingest ends in the failure
notice and no record reaches the store; consequently every record ever
handed to the store write carries a non-empty `file_id`. -/
theorem ingest_unrecognized_no_record :
    (∀ mid cid, handle_file mid cid .other
      = .failed "❌ Could not process this file.")
    ∧ (∀ mid cid p rec, handle_file mid cid p = .saved rec →
        rec.file_id ≠ "") := by
  constructor
  · intro mid cid; rfl
  · intro mid cid p rec h
    cases e : resolveFileMeta mid p with
    | none =>
      simp only [handle_file, e] at h
      exact absurd h (by simp)
    | some t =>
      obtain ⟨fid, nm, sz, mm⟩ := t
      simp only [handle_file, e] at h
      by_cases hfid : fid = ""
      · rw [if_pos hfid] at h; exact absurd h (by simp)
      · rw [if_neg hfid] at h
        simp only [IngestResult.saved.injEq] at h
        rw [← h]
        exact hfid

/-- C3 witness: the unrecognized payload fails with the notice, and the
hypothesis of the invariant is discharged on a concrete saved record. -/
theorem ingest_unrecognized_no_record_witness :
    handle_file 1 "c" TgPayload.other
      = .failed "❌ Could not process this file."
    ∧ ("f" : String) ≠ "" := by
  refine ⟨ingest_unrecognized_no_record.1 1 "c", ?_⟩
  exact ingest_unrecognized_no_record.2 1 "c"
    (.document "f" none none none)
    ⟨"f", "document", none, none, "document", "c"⟩ (by decide)

/-- C4: `classify_file` is total over every combination of optional mime
and optional filename (the result is always one of image, media,
document), follows the first-match order (mime prefix `image` wins, then
mime prefix `video`/`audio`, else the lowercased extension after the last
dot of the filename decides via the two fixed extension sets, else
document), and satisfies the four quoted examples. -/
theorem classify_file_spec :
    (∀ mm nm, classify_file mm nm = "image" ∨ classify_file mm nm = "media"
        ∨ classify_file mm nm = "document")
    ∧ (∀ s nm, pyStartsWith "image" s = true → classify_file (some s) nm = "image")
    ∧ (∀ s nm, (pyStartsWith "video" s || pyStartsWith "audio" s) = true →
        classify_file (some s) nm = "media")
    ∧ (∀ s nm, pyStartsWith "image" s = false → pyStartsWith "video" s = false →
        pyStartsWith "audio" s = false →
        classify_file (some s) nm = classify_by_extension nm)
    ∧ (∀ nm, classify_file none nm = classify_by_extension nm)
    ∧ (∀ nm, extOf nm ∈ imageExts → classify_by_extension (some nm) = "image")
    ∧ (∀ nm, extOf nm ∉ imageExts → extOf nm ∈ mediaExts →
        classify_by_extension (some nm) = "media")
    ∧ (∀ nm, extOf nm ∉ imageExts → extOf nm ∉ mediaExts →
        classify_by_extension (some nm) = "document")
    ∧ classify_file (some "image/png") none = "image"
    ∧ classify_file none (some "movie.MKV") = "media"
    ∧ classify_file none (some "readme") = "document"
    ∧ classify_file (some "application/zip") (some "archive.zip") = "document" := by
  have hext : ∀ nm : String, nm = "" → extOf nm = "" := by
    intro nm h; subst h; rfl
  refine ⟨?_, ?_, ?_, ?_, ?_, ?_, ?_, ?_, by decide, by decide, by decide, by decide⟩
  · intro mm nm
    rw [classify_file]
    by_cases h1 : (strTruthy mm && pyStartsWith "image" (mm.getD "")) = true
    · rw [if_pos h1]; left; rfl
    · rw [if_neg h1]
      by_cases h2 : (strTruthy mm &&
          (pyStartsWith "video" (mm.getD "") ||
           pyStartsWith "audio" (mm.getD ""))) = true
      · rw [if_pos h2]; right; left; rfl
      · rw [if_neg h2]
        rw [classify_by_extension]
        by_cases h3 : strTruthy nm = true
        · rw [if_pos h3]
          by_cases h4 : imageExts.contains (extOf (nm.getD "")) = true
          · rw [if_pos h4]; left; rfl
          · rw [if_neg h4]
            by_cases h5 : mediaExts.contains (extOf (nm.getD "")) = true
            · rw [if_pos h5]; right; left; rfl
            · rw [if_neg h5]; right; right; rfl
        · rw [if_neg h3]; right; right; rfl
  · intro s nm h
    have hs : s ≠ "" := by
      intro e; subst e; exact absurd h (by decide)
    rw [classify_file, if_pos]
    simp [strTruthy, hs, h]
  · intro s nm h
    have hs : s ≠ "" := by
      intro e; subst e; exact absurd h (by decide)
    have hni : pyStartsWith "image" s = false := by
      rcases Bool.or_eq_true_iff.mp h with hv | ha
      · exact pyStartsWith_disjoint "video" "image" 'v' 'i'
          ['i', 'd', 'e', 'o'] ['m', 'a', 'g', 'e'] (by decide)
          (by decide) (by decide) s hv
      · exact pyStartsWith_disjoint "audio" "image" 'a' 'i'
          ['u', 'd', 'i', 'o'] ['m', 'a', 'g', 'e'] (by decide)
          (by decide) (by decide) s ha
    rw [classify_file, if_neg, if_pos]
    · simp [strTruthy, hs, h]
    · simp [strTruthy, hs, hni]
  · intro s nm h1 h2 h3
    rw [classify_file, if_neg, if_neg]
    · simp [h2, h3]
    · simp [h1]
  · intro nm
    rw [classify_file, if_neg, if_neg] <;> simp [strTruthy]
  · intro nm h
    have hnm : nm ≠ "" := by
      intro e
      rw [hext nm e] at h
      exact absurd h (by decide)
    rw [classify_by_extension]
    rw [if_pos (by simp [strTruthy, hnm])]
    rw [if_pos (by simpa using h)]
  · intro nm h1 h2
    have hnm : nm ≠ "" := by
      intro e
      rw [hext nm e] at h2
      exact absurd h2 (by decide)
    rw [classify_by_extension]
    rw [if_pos (by simp [strTruthy, hnm])]
    rw [if_neg (by simpa using h1), if_pos (by simpa using h2)]
  · intro nm h1 h2
    rw [classify_by_extension]
    by_cases h3 : strTruthy (some nm) = true
    · rw [if_pos h3]
      rw [if_neg (by simpa using h1), if_neg (by simpa using h2)]
    · rw [if_neg h3]

/-- C4 witness: the mime `video/mp4` is classified as media through the
second mime rule. -/
theorem classify_file_spec_witness :
    classify_file (some "video/mp4") none = "media" := by
  exact classify_file_spec.2.2.1 "video/mp4" none (by decide)

/-- C5: when the origin reports a size-ceiling failure (the raised error
text mentions `file is too big`), the download handler answers 413 with
the remediation text pointing at the relay path and a JSON error body (so
no bytes are transferred), and a request without `file_id` is answered
400 whatever the upstream would do. -/
theorem download_too_large_413 (fid : String) (hf : fid ≠ "")
    (nm : Option String) (msg : String)
    (h : pyIn "file is too big" (pyLower msg) = true) :
    handle_api_download (some fid) nm (.getFileErr msg)
      = ⟨413, .jsonErr tooLargeText⟩
    ∧ (∀ content disp ct, (handle_api_download (some fid) nm
        (.getFileErr msg)).body ≠ .bytes content disp ct)
    ∧ (∀ name up, handle_api_download none name up
        = ⟨400, .jsonErr "file_id required"⟩) := by
  have he : handle_api_download (some fid) nm (.getFileErr msg)
      = ⟨413, .jsonErr tooLargeText⟩ := by
    simp [handle_api_download, strTruthy, hf, h]
  refine ⟨he, ?_, ?_⟩
  · intro content disp ct
    rw [he]
    simp
  · intro name up
    simp [handle_api_download, strTruthy]

/-- C5 witness: Telegram's actual oversize error text yields the 413
response, and a request without `file_id` yields 400. -/
theorem download_too_large_413_witness :
    handle_api_download (some "f3") none
      (.getFileErr "Bad Request: File Is Too Big")
      = ⟨413, .jsonErr tooLargeText⟩
    ∧ handle_api_download none none (.response 200 none [])
      = ⟨400, .jsonErr "file_id required"⟩ := by
  have h := download_too_large_413 "f3" (by decide) none
    "Bad Request: File Is Too Big" (by decide)
  exact ⟨h.1, h.2.2 none (.response 200 none [])⟩

/-- C6 counterexample: a document payload with no mime hint is saved with
`mime_type` absent — the builder applies no default mime for documents,
contradicting the claim that document payloads fall back to a fixed
per-kind default mime when none is provided. -/
theorem record_builder_document_mime_none :
    handle_file 1 "c" (.document "f" none none none)
      = .saved ⟨"f", "document", none, none, "document", "c"⟩
    ∧ (DocData.mime_type ⟨"f", "document", none, none, "document", "c"⟩).isSome
      = false := by decide

/-- C6 (amended): the record builder applies the shape-specific defaults
of the source: photo synthesizes `photo_<uniqueId>.jpg` / `image/jpeg`,
voice synthesizes `voice_<messageId>.ogg` / `audio/ogg`, video note
synthesizes `videonote_<messageId>.mp4` / `video/mp4`; document, video,
audio and animation keep a provided (non-empty) filename and mime, and
otherwise default the filename to `document`, `video.mp4`, `audio.mp3`,
`animation.gif` and the mime to `video/mp4`, `audio/mpeg`, `image/gif`
respectively — except that a document's missing mime stays absent. -/
theorem record_builder_defaults (mid : ℕ) :
    (∀ ps fid uid sz, resolveFileMeta mid (.photo (ps ++ [⟨fid, uid, sz⟩]))
        = some (fid, "photo_" ++ uid ++ ".jpg", sz, some "image/jpeg"))
    ∧ (∀ fid sz, resolveFileMeta mid (.voice fid sz)
        = some (fid, "voice_" ++ toString mid ++ ".ogg", sz, some "audio/ogg"))
    ∧ (∀ fid sz, resolveFileMeta mid (.videoNote fid sz)
        = some (fid, "videonote_" ++ toString mid ++ ".mp4", sz,
            some "video/mp4"))
    ∧ (∀ fid nm sz mm, nm ≠ "" → mm ≠ "" →
        resolveFileMeta mid (.document fid (some nm) sz (some mm))
          = some (fid, nm, sz, some mm))
    ∧ (∀ fid sz mm, resolveFileMeta mid (.document fid none sz mm)
        = some (fid, "document", sz, mm))
    ∧ (∀ fid nm sz mm, nm ≠ "" → mm ≠ "" →
        resolveFileMeta mid (.video fid (some nm) sz (some mm))
          = some (fid, nm, sz, some mm))
    ∧ (∀ fid sz, resolveFileMeta mid (.video fid none sz none)
        = some (fid, "video.mp4", sz, some "video/mp4"))
    ∧ (∀ fid nm sz mm, nm ≠ "" → mm ≠ "" →
        resolveFileMeta mid (.audio fid (some nm) sz (some mm))
          = some (fid, nm, sz, some mm))
    ∧ (∀ fid sz, resolveFileMeta mid (.audio fid none sz none)
        = some (fid, "audio.mp3", sz, some "audio/mpeg"))
    ∧ (∀ fid nm sz mm, nm ≠ "" → mm ≠ "" →
        resolveFileMeta mid (.animation fid (some nm) sz (some mm))
          = some (fid, nm, sz, some mm))
    ∧ (∀ fid sz, resolveFileMeta mid (.animation fid none sz none)
        = some (fid, "animation.gif", sz, some "image/gif")) := by
  refine ⟨?_, fun fid sz => rfl, fun fid sz => rfl, ?_, fun fid sz mm => rfl,
    ?_, fun fid sz => rfl, ?_, fun fid sz => rfl, ?_, fun fid sz => rfl⟩
  · intro ps fid uid sz
    simp [resolveFileMeta, List.getLast?_concat]
  · intro fid nm sz mm hn hm
    simp [resolveFileMeta, orFalsy, strTruthy, hn, hm]
  · intro fid nm sz mm hn hm
    simp [resolveFileMeta, orFalsy, strTruthy, hn, hm]
  · intro fid nm sz mm hn hm
    simp [resolveFileMeta, orFalsy, strTruthy, hn, hm]
  · intro fid nm sz mm hn hm
    simp [resolveFileMeta, orFalsy, strTruthy, hn, hm]

/-- C6 witness: a document with a provided filename and mime keeps both;
a photo synthesizes its name and mime. -/
theorem record_builder_defaults_witness :
    resolveFileMeta 1 (.document "f" (some "notes.txt") (some 10)
      (some "text/plain")) = some ("f", "notes.txt", some 10, some "text/plain")
    ∧ resolveFileMeta 1 (.photo [⟨"p", "u7", some 3⟩])
      = some ("p", "photo_u7.jpg", some 3, some "image/jpeg") := by
  refine ⟨(record_builder_defaults 1).2.2.2.1 "f" "notes.txt" (some 10)
    "text/plain" (by decide) (by decide), ?_⟩
  have h := (record_builder_defaults 1).1 [] "p" "u7" (some 3)
  simpa using h

/-- C7: the listing returns all records (a permutation of the normalized
store contents) sorted by descending `createdAt` seconds (the sort key is
the normalized timestamp, `0` when absent), returns the empty collection
on an empty store, and is deterministic in the store contents, so repeated
calls with no intervening writes return the same order. -/
theorem api_files_sorted_desc (docs : List StoredDoc) :
    handle_api_files [] = []
    ∧ List.Pairwise (fun a b => sortKey b ≤ sortKey a) (handle_api_files docs)
    ∧ (handle_api_files docs).Perm (docs.map normalizeDoc)
    ∧ handle_api_files docs = handle_api_files docs := by
  refine ⟨rfl, ?_, List.perm_insertionSort fileOrder (docs.map normalizeDoc),
    rfl⟩
  exact List.sorted_insertionSort fileOrder (docs.map normalizeDoc)

/-- C8: `format_size` answers `"unknown"` exactly for an absent or zero
byte count; otherwise the value `n / 1024 ^ k` is reported at the first
unit (B, KB, MB, GB) where it is below 1024, falling through to TB, always
through the one-fractional-digit formatter; `1536` gives `"1.5 KB"` and
`1073741824` gives `"1.0 GB"`. -/
theorem format_size_spec :
    format_size none = "unknown"
    ∧ format_size (some 0) = "unknown"
    ∧ (∀ n : ℕ, 0 < n → n < 1024 →
        format_size (some n) = fmtOneDecimal n 1 ++ " B")
    ∧ (∀ n : ℕ, 1024 ≤ n → n < 1024 ^ 2 →
        format_size (some n) = fmtOneDecimal n 1024 ++ " KB")
    ∧ (∀ n : ℕ, 1024 ^ 2 ≤ n → n < 1024 ^ 3 →
        format_size (some n) = fmtOneDecimal n (1024 ^ 2) ++ " MB")
    ∧ (∀ n : ℕ, 1024 ^ 3 ≤ n → n < 1024 ^ 4 →
        format_size (some n) = fmtOneDecimal n (1024 ^ 3) ++ " GB")
    ∧ (∀ n : ℕ, 1024 ^ 4 ≤ n →
        format_size (some n) = fmtOneDecimal n (1024 ^ 4) ++ " TB")
    ∧ format_size (some 1536) = "1.5 KB"
    ∧ format_size (some 1073741824) = "1.0 GB" := by
  refine ⟨rfl, rfl, ?_, ?_, ?_, ?_, ?_, by decide, by decide⟩
  · intro n h1 h2
    have hn : ¬ n = 0 := by omega
    simp only [format_size, formatLoop, if_neg hn]
    rw [if_pos (by omega)]
    rw [String.append_assoc]
    rfl
  · intro n h1 h2
    have hn : ¬ n = 0 := by omega
    norm_num at h2
    simp only [format_size, formatLoop, if_neg hn]
    rw [if_neg (by omega), if_pos (by omega)]
    norm_num
    rw [String.append_assoc]
    rfl
  · intro n h1 h2
    have hn : ¬ n = 0 := by omega
    norm_num at h1 h2
    simp only [format_size, formatLoop, if_neg hn]
    rw [if_neg (by omega), if_neg (by omega), if_pos (by omega)]
    norm_num
    rw [String.append_assoc]
    rfl
  · intro n h1 h2
    have hn : ¬ n = 0 := by omega
    norm_num at h1 h2
    simp only [format_size, formatLoop, if_neg hn]
    rw [if_neg (by omega), if_neg (by omega), if_neg (by omega),
      if_pos (by omega)]
    norm_num
    rw [String.append_assoc]
    rfl
  · intro n h1
    have hn : ¬ n = 0 := by omega
    norm_num at h1
    simp only [format_size, formatLoop, if_neg hn]
    rw [if_neg (by omega), if_neg (by omega), if_neg (by omega),
      if_neg (by omega)]
    norm_num

/-- C8 witness: a small byte count is reported in the B unit through the
one-decimal formatter. -/
theorem format_size_spec_witness :
    format_size (some 5) = fmtOneDecimal 5 1 ++ " B" := by
  exact format_size_spec.2.2.1 5 (by decide) (by decide)

/-- C9: a download request that supplies `file_id` but no `name` query
parameter uses the literal display name `file`: on a successful upstream
fetch the response is a 200 whose `Content-Disposition` header value is
`attachment; filename="file"`. -/
theorem download_default_display_name (fid : String) (hf : fid ≠ "")
    (ct : Option String) (body : List ℕ) :
    handle_api_download (some fid) none (.response 200 ct body)
      = ⟨200, .bytes body "attachment; filename=\"file\""
          (orFalsy ct "application/octet-stream")⟩ := by
  simp [handle_api_download, strTruthy, hf]

/-- C9 witness: concrete successful download without a `name` parameter. -/
theorem download_default_display_name_witness :
    handle_api_download (some "f4") none (.response 200 none [1, 2])
      = ⟨200, .bytes [1, 2] "attachment; filename=\"file\""
          "application/octet-stream"⟩ := by
  have h := download_default_display_name "f4" (by decide) none [1, 2]
  simpa using h

/-- C10: a stored document without a timestamp keeps no normalized
`seconds` value (its listing entry carries none) and sorts with key `0`,
so in the listing it appears strictly after every record whose key is a
positive timestamp. -/
theorem api_files_missing_timestamp_after_positive (docs : List StoredDoc)
    (i j : ℕ) (hi : i < (handle_api_files docs).length)
    (hj : j < (handle_api_files docs).length)
    (hnone : ((handle_api_files docs).get ⟨i, hi⟩).ts_seconds = none)
    (hpos : 0 < sortKey ((handle_api_files docs).get ⟨j, hj⟩)) :
    (∀ d : StoredDoc, d.timestamp = none →
      (normalizeDoc d).ts_seconds = none ∧ sortKey (normalizeDoc d) = 0)
    ∧ j < i := by
  constructor
  · intro d hd
    simp [normalizeDoc, sortKey, hd]
  · have hp : List.Pairwise (fun a b => sortKey b ≤ sortKey a)
        (handle_api_files docs) :=
      List.sorted_insertionSort fileOrder (docs.map normalizeDoc)
    have hki : sortKey ((handle_api_files docs).get ⟨i, hi⟩) = 0 := by
      simp only [sortKey]
      rw [hnone]
      rfl
    by_contra hji
    push_neg at hji
    rcases lt_or_eq_of_le hji with hlt | heq
    · have := (List.pairwise_iff_get.mp hp) ⟨i, hi⟩ ⟨j, hj⟩
        (Fin.mk_lt_mk.mpr hlt)
      omega
    · have : sortKey ((handle_api_files docs).get ⟨j, hj⟩) = 0 := by
        have he : (⟨i, hi⟩ : Fin (handle_api_files docs).length) = ⟨j, hj⟩ :=
          Fin.mk_eq_mk.mpr heq
        rw [← he]
        exact hki
      omega

/-- C10 witness: with one timestampless and one positively timestamped
document, the timestampless entry lands at index 1, after the timestamped
entry at index 0. -/
theorem api_files_missing_timestamp_after_positive_witness :
    (normalizeDoc ⟨"a", none, none, none, none, none, none, none⟩).ts_seconds
      = none
    ∧ (0 : ℕ) < 1 := by
  have h := api_files_missing_timestamp_after_positive
    [⟨"a", none, none, none, none, none, none, none⟩,
     ⟨"b", none, none, none, none, none, none, some 5⟩]
    1 0 (by decide) (by decide) (by decide) (by decide)
  exact ⟨(h.1 ⟨"a", none, none, none, none, none, none, none⟩ rfl).1, h.2⟩

end CloudBot
